import Mathlib

/-!
Shallow embedding of `src/notebooks/src/auxiliares.py` (a pandas/scipy helper
module) and proofs about it.

Modelling choices:
* Numeric cell values are exact rationals `ℚ`.  Pandas float arithmetic can
  additionally produce the IEEE special values `inf`, `-inf` and `NaN` (for
  instance when dividing by a zero sum), so values that flow through a pandas
  division are modelled by `PFloat`, rationals extended with those three
  special points.  Rounding error of binary floats is not modelled; every
  claim proved here concerns exact relationships (sums, quotients, order),
  which hold exactly over `ℚ`.
* A dataframe is an ordered association list of named columns of rationals.
* The scipy test routines (`shapiro`, `levene`, `ttest_ind`, `kruskal`, ...)
  are external black boxes; each reporter is parameterised by the delegated
  routine, modelled as a function from the column data (plus the forwarded
  keyword options) to the returned `(statistic, p-value)` pair.
* `print` output is modelled as the list of printed lines, in order.
-/

/-- Pandas/IEEE float values: an exact rational, `inf`, `-inf` or `NaN`. -/
inductive PFloat where
  | fin : ℚ → PFloat
  | inf : PFloat
  | neginf : PFloat
  | nan : PFloat
deriving DecidableEq, Repr

/-- IEEE division of a finite value `a` by a finite value `b`, as pandas
performs it elementwise: ordinary division when `b ≠ 0`, otherwise `±inf`
by the sign of `a`, and `NaN` for `0 / 0`. -/
def pdivQ (a b : ℚ) : PFloat :=
  if b ≠ 0 then .fin (a / b)
  else if 0 < a then .inf
  else if a < 0 then .neginf
  else .nan

/-- IEEE addition on `PFloat` (`NaN` absorbs; `inf + -inf = NaN`). -/
def PFloat.add : PFloat → PFloat → PFloat
  | .nan, _ => .nan
  | _, .nan => .nan
  | .inf, .neginf => .nan
  | .neginf, .inf => .nan
  | .inf, _ => .inf
  | _, .inf => .inf
  | .neginf, _ => .neginf
  | _, .neginf => .neginf
  | .fin a, .fin b => .fin (a + b)

/-- Sum of a list of `PFloat`s (left fold of IEEE addition from `0`). -/
def PFloat.listSum (l : List PFloat) : PFloat :=
  l.foldl PFloat.add (.fin 0)

/-- A dataframe: ordered named columns of rational values. -/
def DataFrame := List (String × List ℚ)

/-- `dataframe[coluna]`: the values of the named column (the model assumes
the column is present; a missing column is read as empty). -/
def dfCol (dataframe : DataFrame) (coluna : String) : List ℚ :=
  match dataframe.find? (fun nc => nc.1 = coluna) with
  | some nc => nc.2
  | none => []

/-- Running sum of a list of rationals starting from `acc`
(`pd.Series.cumsum` on finite values). -/
def cumsumQFrom (acc : ℚ) : List ℚ → List ℚ
  | [] => []
  | x :: xs => (acc + x) :: cumsumQFrom (acc + x) xs

/-- `pd.Series.cumsum` on a column of finite values. -/
def cumsumQ (l : List ℚ) : List ℚ := cumsumQFrom 0 l

/-- Running sum over `PFloat` with pandas' default `skipna=True`: positions
holding `NaN` stay `NaN` and are skipped by the accumulator; `NaN` produced
by the arithmetic itself (e.g. `inf + -inf`) does propagate. -/
def cumsumSkipNaFrom (acc : PFloat) : List PFloat → List PFloat
  | [] => []
  | .nan :: xs => .nan :: cumsumSkipNaFrom acc xs
  | x :: xs => (acc.add x) :: cumsumSkipNaFrom (acc.add x) xs

/-- `pd.Series.cumsum` on a `PFloat` column. -/
def cumsumSkipNa (l : List PFloat) : List PFloat := cumsumSkipNaFrom (.fin 0) l

/-- Insert into a `≤`-sorted list of rationals. -/
def insertAsc (x : ℚ) : List ℚ → List ℚ
  | [] => [x]
  | y :: ys => if x ≤ y then x :: y :: ys else y :: insertAsc x ys

/-- Sort a list of rationals ascending (`sort_index` on distinct keys). -/
def sortAsc (l : List ℚ) : List ℚ := l.foldr insertAsc []

/-- The distinct values of a column, sorted ascending: the index of
`value_counts().sort_index()`. -/
def sortedKeys (vals : List ℚ) : List ℚ := sortAsc vals.dedup

/-- The frequency-distribution table returned by
`tabela_distribuicao_frequencias`: the row index and the four data columns,
as parallel ordered lists. -/
structure FreqTable where
  index : List ℚ
  frequencia : List ℚ
  frequencia_relativa : List PFloat
  frequencia_acumulada : List ℚ
  frequencia_relativa_acumulada : List PFloat
deriving DecidableEq, Repr

/-- `tabela_distribuicao_frequencias(dataframe, coluna, coluna_frequencia)`.

With `coluna_frequencia = true` the column already holds frequency values:
`frequencia` is the column as given (caller's row order; the fresh
dataframe's default integer range index is used as the model index) and
`frequencia_relativa` is the elementwise pandas division by the column sum.
With `coluna_frequencia = false` the column holds raw observations:
`value_counts().sort_index()` produces one row per distinct value, keys
ascending, and `value_counts(normalize=True)` divides each count by the
number of observations.  Both cumulative columns are `cumsum()` of the
corresponding column. -/
def tabela_distribuicao_frequencias (dataframe : DataFrame) (coluna : String)
    (coluna_frequencia : Bool := false) : FreqTable :=
  let vals := dfCol dataframe coluna
  let idx : List ℚ :=
    if coluna_frequencia then (List.range vals.length).map (fun n => (n : ℚ))
    else sortedKeys vals
  let freq : List ℚ :=
    if coluna_frequencia then vals
    else (sortedKeys vals).map (fun k => ((vals.count k : ℕ) : ℚ))
  let rel : List PFloat :=
    if coluna_frequencia then vals.map (fun v => pdivQ v vals.sum)
    else (sortedKeys vals).map
      (fun k => pdivQ ((vals.count k : ℕ) : ℚ) ((vals.length : ℕ) : ℚ))
  { index := idx
    frequencia := freq
    frequencia_relativa := rel
    frequencia_acumulada := cumsumQ freq
    frequencia_relativa_acumulada := cumsumSkipNa rel }

/-- Fixed-point decimal rendering of a natural number below 1000, padded to
width 3 (the fractional digits of `:.3f`). -/
def pad3 (n : ℕ) : String :=
  if n < 10 then "00" ++ toString n
  else if n < 100 then "0" ++ toString n
  else toString n

/-- Round to the nearest integer, ties to even (IEEE round used by Python
float formatting). -/
def roundHalfEven (q : ℚ) : ℤ :=
  let f := ⌊q⌋
  let r := q - (f : ℚ)
  if r < 1 / 2 then f
  else if 1 / 2 < r then f + 1
  else if f % 2 = 0 then f else f + 1

/-- Python `f"{x:.3f}"` on a finite value: three decimal digits, round half
to even.  (The sign of a negative zero result is not modelled.) -/
def fmt3 (q : ℚ) : String :=
  let n := roundHalfEven (q * 1000)
  let sign := if n < 0 then "-" else ""
  let m := n.natAbs
  sign ++ toString (m / 1000) ++ "." ++ pad3 (m % 1000)

/-- The verdict line `Não rejeita a hipótese nula (valor p: ...)` printed by
the test reporters when `valor_p > alfa`. -/
def naoRejeita (p : ℚ) : String :=
  "Não rejeita a hipótese nula (valor p: " ++ fmt3 p ++ ")"

/-- The verdict line `Rejeita a hipótese nula (valor p: ...)` printed by the
test reporters when `valor_p ≤ alfa`. -/
def rejeita (p : ℚ) : String :=
  "Rejeita a hipótese nula (valor p: " ++ fmt3 p ++ ")"

/-- The column data of a dataframe, in column order
(`[dataframe[coluna] for coluna in dataframe.columns]`). -/
def dfColunas (dataframe : DataFrame) : List (List ℚ) :=
  dataframe.map (fun nc => nc.2)

/-- `analise_shapiro(dataframe, alfa)`: per column, delegate to
`scipy.stats.shapiro` (modelled by the oracle `sh`, which absorbs
`nan_policy="omit"`), print the statistic line and a normality verdict. -/
def analise_shapiro (sh : List ℚ → ℚ × ℚ) (dataframe : DataFrame)
    (alfa : ℚ := 1 / 20) : List String :=
  "Teste de Shapiro-Wilk" ::
    dataframe.flatMap (fun nc =>
      let r := sh nc.2
      [ "estatistica_sw=" ++ fmt3 r.1
      , if r.2 > alfa then
          nc.1 ++ " segue uma distribuição normal (valor p: " ++ fmt3 r.2 ++ ")"
        else
          nc.1 ++ " não segue uma distribuição normal (valor p: " ++ fmt3 r.2 ++ ")" ])

/-- `analise_levene(dataframe, alfa, centro)`: delegate to
`scipy.stats.levene` over all columns with the chosen centering statistic
(oracle `lev`), print the statistic line and a variance verdict. -/
def analise_levene (lev : List (List ℚ) → String → ℚ × ℚ)
    (dataframe : DataFrame) (alfa : ℚ := 1 / 20) (centro : String := "mean") :
    List String :=
  let r := lev (dfColunas dataframe) centro
  [ "Teste de Levene"
  , "estatistica_levene=" ++ fmt3 r.1
  , if r.2 > alfa then "Variâncias iguais (valor p: " ++ fmt3 r.2 ++ ")"
    else "Ao menos uma variância é diferente (valor p: " ++ fmt3 r.2 ++ ")" ]

/-- `analises_shapiro_levene(dataframe, alfa, centro)`: run the Shapiro-Wilk
report, print a blank line, then run the Levene report. -/
def analises_shapiro_levene (sh : List ℚ → ℚ × ℚ)
    (lev : List (List ℚ) → String → ℚ × ℚ) (dataframe : DataFrame)
    (alfa : ℚ := 1 / 20) (centro : String := "mean") : List String :=
  analise_shapiro sh dataframe alfa ++ [""] ++
    analise_levene lev dataframe alfa centro

/-- `analise_ttest_ind(dataframe, alfa, variancias_iguais, alternativa)`:
delegate to `scipy.stats.ttest_ind` over the columns with the forwarded
options (oracle `ttest`), print the statistic line and the verdict. -/
def analise_ttest_ind (ttest : List (List ℚ) → Bool → String → ℚ × ℚ)
    (dataframe : DataFrame) (alfa : ℚ := 1 / 20)
    (variancias_iguais : Bool := true) (alternativa : String := "two-sided") :
    List String :=
  let r := ttest (dfColunas dataframe) variancias_iguais alternativa
  [ "Teste t de Student"
  , "estatistica_ttest=" ++ fmt3 r.1
  , if r.2 > alfa then naoRejeita r.2 else rejeita r.2 ]

/-- `analise_ttest_rel(dataframe, alfa, alternativa)`. -/
def analise_ttest_rel (ttest : List (List ℚ) → String → ℚ × ℚ)
    (dataframe : DataFrame) (alfa : ℚ := 1 / 20)
    (alternativa : String := "two-sided") : List String :=
  let r := ttest (dfColunas dataframe) alternativa
  [ "Teste t de Student"
  , "estatistica_ttest=" ++ fmt3 r.1
  , if r.2 > alfa then naoRejeita r.2 else rejeita r.2 ]

/-- `analise_anova_one_way(dataframe, alfa)`. -/
def analise_anova_one_way (f : List (List ℚ) → ℚ × ℚ)
    (dataframe : DataFrame) (alfa : ℚ := 1 / 20) : List String :=
  let r := f (dfColunas dataframe)
  [ "Teste ANOVA one way"
  , "estatistica_f=" ++ fmt3 r.1
  , if r.2 > alfa then naoRejeita r.2 else rejeita r.2 ]

/-- `analise_wilcoxon(dataframe, alfa, alternativa)`. -/
def analise_wilcoxon (w : List (List ℚ) → String → ℚ × ℚ)
    (dataframe : DataFrame) (alfa : ℚ := 1 / 20)
    (alternativa : String := "two-sided") : List String :=
  let r := w (dfColunas dataframe) alternativa
  [ "Teste de Wilcoxon"
  , "estatistica_wilcoxon=" ++ fmt3 r.1
  , if r.2 > alfa then naoRejeita r.2 else rejeita r.2 ]

/-- `analise_mannwhitneyu(dataframe, alfa, alternativa)`. -/
def analise_mannwhitneyu (mw : List (List ℚ) → String → ℚ × ℚ)
    (dataframe : DataFrame) (alfa : ℚ := 1 / 20)
    (alternativa : String := "two-sided") : List String :=
  let r := mw (dfColunas dataframe) alternativa
  [ "Teste de Mann-Whitney"
  , "estatistica_mw=" ++ fmt3 r.1
  , if r.2 > alfa then naoRejeita r.2 else rejeita r.2 ]

/-- `analise_friedman(dataframe, alfa)`. -/
def analise_friedman (fr : List (List ℚ) → ℚ × ℚ)
    (dataframe : DataFrame) (alfa : ℚ := 1 / 20) : List String :=
  let r := fr (dfColunas dataframe)
  [ "Teste de Friedman"
  , "estatistica_friedman=" ++ fmt3 r.1
  , if r.2 > alfa then naoRejeita r.2 else rejeita r.2 ]

/-- `analise_kruskal(dataframe, alfa)`. -/
def analise_kruskal (kr : List (List ℚ) → ℚ × ℚ)
    (dataframe : DataFrame) (alfa : ℚ := 1 / 20) : List String :=
  let r := kr (dfColunas dataframe)
  [ "Teste de Kruskal"
  , "estatistica_kruskal=" ++ fmt3 r.1
  , if r.2 > alfa then naoRejeita r.2 else rejeita r.2 ]

/-- Effect-explicit view of `tabela_distribuicao_frequencias`: the function
body reads `dataframe` but contains no statement assigning into it, so the
post-call dataframe binding is the input itself, returned here alongside the
result. -/
def tabela_distribuicao_frequencias_eff (dataframe : DataFrame)
    (coluna : String) (coluna_frequencia : Bool := false) :
    DataFrame × FreqTable :=
  (dataframe, tabela_distribuicao_frequencias dataframe coluna coluna_frequencia)

/-- Effect-explicit view of `composicao_histograma_boxplot`: the plotting
body only reads the dataframe (boxplot, histogram, mean/median/mode lines);
the rendered figure itself is out of scope, so the result is `Unit`. -/
def composicao_histograma_boxplot_eff (dataframe : DataFrame)
    (coluna : String) (intervalos : String := "auto") : DataFrame × Unit :=
  (dataframe, ())

/-- Effect-explicit view of `analise_shapiro`: the loop reads each column
and prints; nothing assigns into the dataframe. -/
def analise_shapiro_eff (sh : List ℚ → ℚ × ℚ) (dataframe : DataFrame)
    (alfa : ℚ := 1 / 20) : DataFrame × List String :=
  (dataframe, analise_shapiro sh dataframe alfa)

/-- Effect-explicit view of `analise_ttest_ind`. -/
def analise_ttest_ind_eff (ttest : List (List ℚ) → Bool → String → ℚ × ℚ)
    (dataframe : DataFrame) (alfa : ℚ := 1 / 20)
    (variancias_iguais : Bool := true) (alternativa : String := "two-sided") :
    DataFrame × List String :=
  (dataframe, analise_ttest_ind ttest dataframe alfa variancias_iguais alternativa)

/-- The structural output contract of a `hipótese nula` test reporter, for a
delegated routine that returned p-value `p`: the printed lines are exactly
the test name, the statistic line, and the verdict chosen by the strict
`p > alfa` rule; moreover exactly one printed line is a verdict line. -/
def reporterSpec (out : List String) (nome statline : String) (p alfa : ℚ) :
    Prop :=
  out = [nome, statline, if p > alfa then naoRejeita p else rejeita p] ∧
  out.countP (fun l => decide (l = naoRejeita p) || decide (l = rejeita p)) = 1

/-! ### General lemmas about the embedded operations -/

theorem cumsumSkipNaFrom_map_fin (l : List ℚ) (a : ℚ) :
    cumsumSkipNaFrom (.fin a) (l.map .fin) =
      (cumsumQFrom a l).map .fin := by
  induction l generalizing a with
  | nil => rfl
  | cons x xs ih =>
      simp only [List.map_cons, cumsumSkipNaFrom, cumsumQFrom, PFloat.add]
      exact congrArg _ (ih (a + x))

theorem cumsumSkipNaFrom_all_nan (l : List PFloat) (acc : PFloat)
    (h : ∀ x ∈ l, x = PFloat.nan) :
    cumsumSkipNaFrom acc l = l.map (fun _ => PFloat.nan) := by
  induction l generalizing acc with
  | nil => rfl
  | cons x xs ih =>
      have hx : x = PFloat.nan := h x (List.mem_cons_self x xs)
      subst hx
      simp only [cumsumSkipNaFrom, List.map_cons]
      exact congrArg _ (ih acc (fun y hy => h y (List.mem_cons_of_mem _ hy)))

theorem cumsumQFrom_chain (l : List ℚ) (a : ℚ) (h : ∀ x ∈ l, 0 ≤ x) :
    List.Chain (· ≤ ·) a (cumsumQFrom a l) := by
  induction l generalizing a with
  | nil => exact List.Chain.nil
  | cons x xs ih =>
      refine List.Chain.cons ?_ (ih (a + x) fun y hy => h y (.tail _ hy))
      exact le_add_of_nonneg_right (h x (.head _))

theorem cumsumQ_chain' (l : List ℚ) (h : ∀ x ∈ l, 0 ≤ x) :
    List.Chain' (· ≤ ·) (cumsumQ l) := by
  cases l with
  | nil => exact trivial
  | cons x xs =>
      have := cumsumQFrom_chain (x :: xs) 0 h
      simp only [cumsumQFrom] at this ⊢
      exact (List.chain_cons.mp this).2

theorem cumsumQFrom_getLastD (l : List ℚ) (a : ℚ) :
    (cumsumQFrom a l).getLastD a = a + l.sum := by
  induction l generalizing a with
  | nil => simp [cumsumQFrom]
  | cons x xs ih =>
      simp only [cumsumQFrom, List.getLastD_cons, List.sum_cons]
      rw [ih (a + x), add_assoc]

theorem cumsumQ_getLastD (l : List ℚ) : (cumsumQ l).getLastD 0 = l.sum := by
  simpa using cumsumQFrom_getLastD l 0

theorem foldl_add_map_fin (l : List ℚ) (a : ℚ) :
    (l.map PFloat.fin).foldl PFloat.add (.fin a) = .fin (a + l.sum) := by
  induction l generalizing a with
  | nil => simp
  | cons x xs ih =>
      simp only [List.map_cons, List.foldl_cons, PFloat.add, List.sum_cons]
      rw [ih (a + x), add_assoc]

theorem listSum_map_fin (l : List ℚ) :
    PFloat.listSum (l.map PFloat.fin) = .fin l.sum := by
  simpa [PFloat.listSum] using foldl_add_map_fin l 0

theorem insertAsc_perm (x : ℚ) (l : List ℚ) :
    List.Perm (insertAsc x l) (x :: l) := by
  induction l with
  | nil => exact List.Perm.refl _
  | cons y ys ih =>
      by_cases h : x ≤ y
      · simp [insertAsc, h]
      · simp only [insertAsc, h, if_false]
        exact (ih.cons y).trans (List.Perm.swap x y ys)

theorem sortAsc_perm (l : List ℚ) : List.Perm (sortAsc l) l := by
  induction l with
  | nil => exact List.Perm.refl _
  | cons x xs ih =>
      exact ((insertAsc_perm x (sortAsc xs)).trans (ih.cons x))

theorem sortedKeys_perm_dedup (vals : List ℚ) :
    List.Perm (sortedKeys vals) vals.dedup :=
  sortAsc_perm vals.dedup

theorem pdivQ_of_ne_zero (a : ℚ) {b : ℚ} (hb : b ≠ 0) :
    pdivQ a b = .fin (a / b) := by
  simp [pdivQ, hb]

theorem pdivQ_zero_zero : pdivQ 0 0 = .nan := by
  simp [pdivQ]

/-- Sum of counted occurrences of the sorted keys, cast to `ℚ`, is the
number of observations. -/
theorem sum_counts_sortedKeys (vals : List ℚ) :
    ((sortedKeys vals).map (fun k => ((vals.count k : ℕ) : ℚ))).sum =
      ((vals.length : ℕ) : ℚ) := by
  have hperm := (sortedKeys_perm_dedup vals).map
    (fun k => ((vals.count k : ℕ) : ℚ))
  rw [hperm.sum_eq]
  have hnat : ((vals.dedup.map (fun k => vals.count k)).sum : ℚ) =
      ((vals.length : ℕ) : ℚ) := by
    exact_mod_cast congrArg (fun n => ((n : ℕ) : ℚ))
      (List.sum_map_count_dedup_eq_length vals)
  rw [← hnat, Nat.cast_list_sum, List.map_map]
  rfl

/-! ### String-shape lemmas for the printed reports -/

theorem String.ne_of_head_ne {s t : String}
    (h : s.data.head? ≠ t.data.head?) : s ≠ t :=
  fun e => h (congrArg (fun u => u.data.head?) e)

theorem append_head_eq (s t : String) {c : Char}
    (h : s.data.head? = some c) : (s ++ t).data.head? = some c := by
  rw [String.data_append]
  cases hs : s.data with
  | nil => rw [hs] at h; exact absurd h (by simp)
  | cons a as => rw [hs] at h; simp at h; simp [h]

theorem naoRejeita_head (p : ℚ) :
    (naoRejeita p).data.head? = some 'N' := by
  unfold naoRejeita
  exact append_head_eq _ _ (append_head_eq _ _ rfl)

theorem rejeita_head (p : ℚ) :
    (rejeita p).data.head? = some 'R' := by
  unfold rejeita
  exact append_head_eq _ _ (append_head_eq _ _ rfl)

/-- Any reporter output of the common shape satisfies `reporterSpec`,
provided the test-name line starts with `T` and the statistic line starts
with `e` (true of all the reporters in the module). -/
theorem reporterSpec_mk (nome statvar : String) (stat p alfa : ℚ)
    (hn : nome.data.head? = some 'T')
    (hs : statvar.data.head? = some 'e') :
    reporterSpec
      [nome, statvar ++ fmt3 stat, if p > alfa then naoRejeita p else rejeita p]
      nome (statvar ++ fmt3 stat) p alfa := by
  have hsv : (statvar ++ fmt3 stat).data.head? = some 'e' :=
    append_head_eq _ _ hs
  have h1 : nome ≠ naoRejeita p :=
    String.ne_of_head_ne (by rw [hn, naoRejeita_head]; decide)
  have h2 : nome ≠ rejeita p :=
    String.ne_of_head_ne (by rw [hn, rejeita_head]; decide)
  have h3 : statvar ++ fmt3 stat ≠ naoRejeita p :=
    String.ne_of_head_ne (by rw [hsv, naoRejeita_head]; decide)
  have h4 : statvar ++ fmt3 stat ≠ rejeita p :=
    String.ne_of_head_ne (by rw [hsv, rejeita_head]; decide)
  refine ⟨rfl, ?_⟩
  by_cases hc : p > alfa <;>
    simp [hc, List.countP_cons, h1, h2, h3, h4]

/-! ### Claims -/

/-- C3: in raw-count mode (`coluna_frequencia = true`, nonzero column sum so
the quotients are defined) the table's `frequencia` column is the input
column with the caller's row order preserved, each relative frequency is
that row's value divided by the column sum, and the cumulative relative
column is the running sum of the relative column. -/
theorem claim_C3 (dataframe : DataFrame) (coluna : String)
    (h : (dfCol dataframe coluna).sum ≠ 0) :
    (tabela_distribuicao_frequencias dataframe coluna true).frequencia =
        dfCol dataframe coluna ∧
    (tabela_distribuicao_frequencias dataframe coluna true).frequencia_relativa =
        (dfCol dataframe coluna).map
          (fun v => PFloat.fin (v / (dfCol dataframe coluna).sum)) ∧
    (tabela_distribuicao_frequencias dataframe coluna true).frequencia_relativa_acumulada =
        (cumsumQ ((dfCol dataframe coluna).map
          (fun v => v / (dfCol dataframe coluna).sum))).map PFloat.fin := by
  have hrel :
      (dfCol dataframe coluna).map
          (fun v => pdivQ v (dfCol dataframe coluna).sum) =
        ((dfCol dataframe coluna).map
          (fun v => v / (dfCol dataframe coluna).sum)).map PFloat.fin := by
    rw [List.map_map]
    exact List.map_congr_left (fun v _ => pdivQ_of_ne_zero v h)
  refine ⟨rfl, ?_, ?_⟩
  · show (dfCol dataframe coluna).map
        (fun v => pdivQ v (dfCol dataframe coluna).sum) = _
    rw [hrel, List.map_map]
    rfl
  · show cumsumSkipNa ((dfCol dataframe coluna).map
        (fun v => pdivQ v (dfCol dataframe coluna).sum)) = _
    rw [hrel]
    exact cumsumSkipNaFrom_map_fin _ 0

/-- C3 witness: the raw-count mode contract evaluated on the concrete
column `[1, 3]` (sum 4). -/
theorem claim_C3_witness :
    ((dfCol [("f", [1, 3])] "f").sum ≠ 0) ∧
    (tabela_distribuicao_frequencias [("f", [1, 3])] "f" true).frequencia_relativa =
      (dfCol [("f", [1, 3])] "f").map
        (fun v => PFloat.fin (v / (dfCol [("f", [1, 3])] "f").sum)) :=
  ⟨by norm_num [dfCol], (claim_C3 [("f", [1, 3])] "f" (by norm_num [dfCol])).2.1⟩

/-- C4: in raw-observation mode on a non-empty column, the relative
frequencies sum to exactly 1 (hence certainly to 1 within `1e-9`). -/
theorem claim_C4 (dataframe : DataFrame) (coluna : String)
    (h : dfCol dataframe coluna ≠ []) :
    PFloat.listSum
        ((tabela_distribuicao_frequencias dataframe coluna false).frequencia_relativa) =
      .fin 1 := by
  have hn : (((dfCol dataframe coluna).length : ℕ) : ℚ) ≠ 0 := by
    exact_mod_cast fun hz => h (List.length_eq_zero.mp (by exact_mod_cast hz))
  show PFloat.listSum
      ((sortedKeys (dfCol dataframe coluna)).map
        (fun k => pdivQ (((dfCol dataframe coluna).count k : ℕ) : ℚ)
          (((dfCol dataframe coluna).length : ℕ) : ℚ))) = _
  have hmap :
      (sortedKeys (dfCol dataframe coluna)).map
          (fun k => pdivQ (((dfCol dataframe coluna).count k : ℕ) : ℚ)
            (((dfCol dataframe coluna).length : ℕ) : ℚ)) =
        ((sortedKeys (dfCol dataframe coluna)).map
          (fun k => (((dfCol dataframe coluna).count k : ℕ) : ℚ) /
            (((dfCol dataframe coluna).length : ℕ) : ℚ))).map PFloat.fin := by
    rw [List.map_map]
    exact List.map_congr_left (fun k _ => pdivQ_of_ne_zero _ hn)
  rw [hmap, listSum_map_fin]
  have hdiv :
      (fun k => (((dfCol dataframe coluna).count k : ℕ) : ℚ) /
          (((dfCol dataframe coluna).length : ℕ) : ℚ)) =
        fun k => (((dfCol dataframe coluna).count k : ℕ) : ℚ) *
          ((((dfCol dataframe coluna).length : ℕ) : ℚ))⁻¹ :=
    funext fun k => div_eq_mul_inv _ _
  rw [hdiv, List.sum_map_mul_right, sum_counts_sortedKeys]
  exact congrArg PFloat.fin (mul_inv_cancel₀ hn)

/-- C4 witness: the relative frequencies of the concrete column
`[1, 1, 2]` sum to 1. -/
theorem claim_C4_witness :
    (dfCol [("c", [1, 1, 2])] "c" ≠ []) ∧
    PFloat.listSum
        ((tabela_distribuicao_frequencias [("c", [1, 1, 2])] "c" false).frequencia_relativa) =
      .fin 1 :=
  ⟨by simp [dfCol], claim_C4 [("c", [1, 1, 2])] "c" (by simp [dfCol])⟩

/-- C5 counterexample: in raw-count mode the builder accepts arbitrary
values; for the frequency column `[1, -1]` the cumulative frequency
sequence is `[1, 0]`, which is not non-decreasing, so the claim fails as
stated for "either input mode". -/
theorem claim_C5_counterexample :
    (tabela_distribuicao_frequencias [("f", [1, -1])] "f" true).frequencia_acumulada =
        [1, 0] ∧
    ¬ List.Chain' (· ≤ ·)
        ((tabela_distribuicao_frequencias [("f", [1, -1])] "f" true).frequencia_acumulada) := by
  have h : (tabela_distribuicao_frequencias [("f", [1, -1])] "f" true).frequencia_acumulada =
      [1, 0] := by
    norm_num [tabela_distribuicao_frequencias, dfCol, cumsumQ, cumsumQFrom]
  refine ⟨h, ?_⟩
  rw [h]
  simp only [List.chain'_cons]
  norm_num

/-- C5 (amended): whenever the frequency column of the produced table is
nonnegative — which always holds in raw-observation mode, whose
frequencies are value counts — the cumulative frequency sequence is
non-decreasing; in every case its final value equals the sum of the
absolute frequency column. -/
theorem claim_C5 (dataframe : DataFrame) (coluna : String)
    (coluna_frequencia : Bool) :
    ((∀ x ∈ (tabela_distribuicao_frequencias dataframe coluna coluna_frequencia).frequencia,
        0 ≤ x) →
      List.Chain' (· ≤ ·)
        (tabela_distribuicao_frequencias dataframe coluna coluna_frequencia).frequencia_acumulada) ∧
    (tabela_distribuicao_frequencias dataframe coluna coluna_frequencia).frequencia_acumulada.getLastD 0 =
      (tabela_distribuicao_frequencias dataframe coluna coluna_frequencia).frequencia.sum ∧
    ∀ x ∈ (tabela_distribuicao_frequencias dataframe coluna false).frequencia, 0 ≤ x := by
  refine ⟨fun h => cumsumQ_chain' _ h, cumsumQ_getLastD _, ?_⟩
  intro x hx
  have hx' : x ∈ (sortedKeys (dfCol dataframe coluna)).map
      (fun k => (((dfCol dataframe coluna).count k : ℕ) : ℚ)) := hx
  obtain ⟨k, _, rfl⟩ := List.mem_map.mp hx'
  exact Nat.cast_nonneg _

/-- C5 witness: for the concrete raw-observation column `[1,1,2,2,3]` the
cumulative frequency sequence is non-decreasing and ends at the total. -/
theorem claim_C5_witness :
    List.Chain' (· ≤ ·)
      ((tabela_distribuicao_frequencias [("c", [1, 1, 2, 2, 3])] "c" false).frequencia_acumulada) ∧
    (tabela_distribuicao_frequencias [("c", [1, 1, 2, 2, 3])] "c" false).frequencia_acumulada.getLastD 0 =
      (tabela_distribuicao_frequencias [("c", [1, 1, 2, 2, 3])] "c" false).frequencia.sum :=
  ⟨(claim_C5 [("c", [1, 1, 2, 2, 3])] "c" false).1
      ((claim_C5 [("c", [1, 1, 2, 2, 3])] "c" false).2.2),
    (claim_C5 [("c", [1, 1, 2, 2, 3])] "c" false).2.1⟩

/-- C6: the end-to-end example: raw-observation column `[1,1,2,2,3]`
produces keys `1, 2, 3` in that order, frequencies `[2,2,1]`, relative
frequencies `[0.4, 0.4, 0.2]`, cumulative frequencies `[2,4,5]` and
cumulative relative frequencies `[0.4, 0.8, 1.0]`. -/
theorem claim_C6 :
    tabela_distribuicao_frequencias [("c", [1, 1, 2, 2, 3])] "c" false =
      { index := [1, 2, 3]
        frequencia := [2, 2, 1]
        frequencia_relativa := [.fin (2/5), .fin (2/5), .fin (1/5)]
        frequencia_acumulada := [2, 4, 5]
        frequencia_relativa_acumulada := [.fin (2/5), .fin (4/5), .fin 1] } := by
  norm_num [tabela_distribuicao_frequencias, dfCol, sortedKeys, sortAsc,
    insertAsc, List.dedup, List.count_cons, pdivQ, cumsumQ, cumsumQFrom,
    cumsumSkipNa, cumsumSkipNaFrom, PFloat.add, FreqTable.mk.injEq]

/-- C7: an empty input column yields a table with zero rows in either mode,
with no division-by-zero failure (the builder is total; with the flag false
an empty column means `value_counts` has no rows, so there are no relative
entries at all). -/
theorem claim_C7 (dataframe : DataFrame) (coluna : String)
    (coluna_frequencia : Bool) (h : dfCol dataframe coluna = []) :
    tabela_distribuicao_frequencias dataframe coluna coluna_frequencia =
      { index := [], frequencia := [], frequencia_relativa := [],
        frequencia_acumulada := [], frequencia_relativa_acumulada := [] } := by
  cases coluna_frequencia <;>
    simp [tabela_distribuicao_frequencias, h, sortedKeys, sortAsc, List.dedup,
      cumsumQ, cumsumQFrom, cumsumSkipNa, cumsumSkipNaFrom]

/-- C7 witness: the builder applied to a concrete empty column in raw-count
mode returns the empty table. -/
theorem claim_C7_witness :
    dfCol [("v", ([] : List ℚ))] "v" = [] ∧
    tabela_distribuicao_frequencias [("v", ([] : List ℚ))] "v" true =
      { index := [], frequencia := [], frequencia_relativa := [],
        frequencia_acumulada := [], frequencia_relativa_acumulada := [] } :=
  ⟨by simp [dfCol], claim_C7 [("v", ([] : List ℚ))] "v" true (by simp [dfCol])⟩

/-- C8: for every dataframe, threshold and centering choice, the composite
report is exactly the Shapiro-Wilk report, then one blank printed line,
then the Levene report, each called with the same arguments. -/
theorem claim_C8 (sh : List ℚ → ℚ × ℚ) (lev : List (List ℚ) → String → ℚ × ℚ)
    (dataframe : DataFrame) (alfa : ℚ) (centro : String) :
    analises_shapiro_levene sh lev dataframe alfa centro =
      analise_shapiro sh dataframe alfa ++ [""] ++
        analise_levene lev dataframe alfa centro := rfl

/-- C9: in the effect-explicit embedding (each function returns the
post-call dataframe binding next to its result; none of the source bodies
contains a statement assigning into the input), the frequency-table
builder, the plot composer and the test reporters all leave the input
dataframe unchanged. -/
theorem claim_C9 (dataframe : DataFrame) (coluna intervalos : String)
    (coluna_frequencia : Bool) (sh : List ℚ → ℚ × ℚ)
    (ttest : List (List ℚ) → Bool → String → ℚ × ℚ) (alfa : ℚ)
    (variancias_iguais : Bool) (alternativa : String) :
    (tabela_distribuicao_frequencias_eff dataframe coluna coluna_frequencia).1 =
        dataframe ∧
    (composicao_histograma_boxplot_eff dataframe coluna intervalos).1 =
        dataframe ∧
    (analise_shapiro_eff sh dataframe alfa).1 = dataframe ∧
    (analise_ttest_ind_eff ttest dataframe alfa variancias_iguais alternativa).1 =
        dataframe :=
  ⟨rfl, rfl, rfl, rfl⟩

/-- C10 counterexample: the frequency column `[1, -1]` sums to zero, yet
its relative frequencies are `inf` and `-inf` (IEEE signed division by
zero), not `NaN`, so the claim fails as stated for a merely zero-sum
column. -/
theorem claim_C10_counterexample :
    (dfCol [("f", [1, -1])] "f").sum = 0 ∧
    (tabela_distribuicao_frequencias [("f", [1, -1])] "f" true).frequencia_relativa =
      [PFloat.inf, PFloat.neginf] ∧
    PFloat.inf ≠ PFloat.nan := by
  refine ⟨by norm_num [dfCol], ?_, by decide⟩
  norm_num [tabela_distribuicao_frequencias, dfCol, pdivQ]

/-- C10 (amended): when `coluna_frequencia = true` and every entry of the
supplied frequency column is zero (so that each quotient is `0 / 0`), the
builder returns one row per input row without raising, and every relative
frequency and cumulative relative frequency entry is `NaN`. -/
theorem claim_C10 (dataframe : DataFrame) (coluna : String)
    (h : ∀ x ∈ dfCol dataframe coluna, x = 0) :
    (tabela_distribuicao_frequencias dataframe coluna true).frequencia.length =
        (dfCol dataframe coluna).length ∧
    (∀ y ∈ (tabela_distribuicao_frequencias dataframe coluna true).frequencia_relativa,
        y = PFloat.nan) ∧
    (∀ y ∈ (tabela_distribuicao_frequencias dataframe coluna true).frequencia_relativa_acumulada,
        y = PFloat.nan) := by
  have hsum : (dfCol dataframe coluna).sum = 0 := List.sum_eq_zero h
  have hrel : ∀ y ∈ (tabela_distribuicao_frequencias dataframe coluna true).frequencia_relativa,
      y = PFloat.nan := by
    intro y hy
    have hy' : y ∈ (dfCol dataframe coluna).map
        (fun v => pdivQ v (dfCol dataframe coluna).sum) := hy
    obtain ⟨v, hv, rfl⟩ := List.mem_map.mp hy'
    rw [h v hv, hsum]
    exact pdivQ_zero_zero
  refine ⟨rfl, hrel, ?_⟩
  intro y hy
  have hcum : (tabela_distribuicao_frequencias dataframe coluna true).frequencia_relativa_acumulada =
      ((tabela_distribuicao_frequencias dataframe coluna true).frequencia_relativa).map
        (fun _ => PFloat.nan) :=
    cumsumSkipNaFrom_all_nan _ _ hrel
  rw [hcum] at hy
  obtain ⟨_, _, rfl⟩ := List.mem_map.mp hy
  rfl

/-- C10 witness: the all-zero frequency column `[0, 0]` keeps its two rows
and its relative frequencies are all `NaN`. -/
theorem claim_C10_witness :
    (∀ x ∈ dfCol [("f", [0, 0])] "f", x = (0 : ℚ)) ∧
    (tabela_distribuicao_frequencias [("f", [0, 0])] "f" true).frequencia.length =
        (dfCol [("f", [0, 0])] "f").length ∧
    (∀ y ∈ (tabela_distribuicao_frequencias [("f", [0, 0])] "f" true).frequencia_relativa,
        y = PFloat.nan) :=
  ⟨by simp [dfCol], (claim_C10 [("f", [0, 0])] "f" (by simp [dfCol])).1,
    (claim_C10 [("f", [0, 0])] "f" (by simp [dfCol])).2.1⟩

/-- C1: every `hipótese nula` test reporter prints exactly the test name,
the statistic formatted to 3 decimals, and one verdict line: the
`fails to reject` message when the delegated routine's p-value is strictly
greater than `alfa`, the `rejects` message otherwise. -/
theorem claim_C1
    (tind : List (List ℚ) → Bool → String → ℚ × ℚ)
    (trel w mw : List (List ℚ) → String → ℚ × ℚ)
    (an fr kr : List (List ℚ) → ℚ × ℚ)
    (dataframe : DataFrame) (alfa : ℚ) (variancias_iguais : Bool)
    (alternativa : String) :
    reporterSpec
      (analise_ttest_ind tind dataframe alfa variancias_iguais alternativa)
      "Teste t de Student"
      ("estatistica_ttest=" ++
        fmt3 (tind (dfColunas dataframe) variancias_iguais alternativa).1)
      (tind (dfColunas dataframe) variancias_iguais alternativa).2 alfa ∧
    reporterSpec (analise_ttest_rel trel dataframe alfa alternativa)
      "Teste t de Student"
      ("estatistica_ttest=" ++ fmt3 (trel (dfColunas dataframe) alternativa).1)
      (trel (dfColunas dataframe) alternativa).2 alfa ∧
    reporterSpec (analise_anova_one_way an dataframe alfa)
      "Teste ANOVA one way"
      ("estatistica_f=" ++ fmt3 (an (dfColunas dataframe)).1)
      (an (dfColunas dataframe)).2 alfa ∧
    reporterSpec (analise_wilcoxon w dataframe alfa alternativa)
      "Teste de Wilcoxon"
      ("estatistica_wilcoxon=" ++ fmt3 (w (dfColunas dataframe) alternativa).1)
      (w (dfColunas dataframe) alternativa).2 alfa ∧
    reporterSpec (analise_mannwhitneyu mw dataframe alfa alternativa)
      "Teste de Mann-Whitney"
      ("estatistica_mw=" ++ fmt3 (mw (dfColunas dataframe) alternativa).1)
      (mw (dfColunas dataframe) alternativa).2 alfa ∧
    reporterSpec (analise_friedman fr dataframe alfa)
      "Teste de Friedman"
      ("estatistica_friedman=" ++ fmt3 (fr (dfColunas dataframe)).1)
      (fr (dfColunas dataframe)).2 alfa ∧
    reporterSpec (analise_kruskal kr dataframe alfa)
      "Teste de Kruskal"
      ("estatistica_kruskal=" ++ fmt3 (kr (dfColunas dataframe)).1)
      (kr (dfColunas dataframe)).2 alfa :=
  ⟨reporterSpec_mk _ _ _ _ _ rfl rfl, reporterSpec_mk _ _ _ _ _ rfl rfl,
    reporterSpec_mk _ _ _ _ _ rfl rfl, reporterSpec_mk _ _ _ _ _ rfl rfl,
    reporterSpec_mk _ _ _ _ _ rfl rfl, reporterSpec_mk _ _ _ _ _ rfl rfl,
    reporterSpec_mk _ _ _ _ _ rfl rfl⟩

/-- C2 counterexample: with a mocked delegated routine returning a p-value
exactly equal to `alfa = 0.05`, the two-sample t-test reporter prints the
`Rejeita a hipótese nula` verdict (the check is strictly `p > alfa`), which
differs from the `fails to reject` message the claim requires. -/
theorem claim_C2_counterexample :
    analise_ttest_ind (fun _ _ _ => (0, 1 / 20)) [("a", [1]), ("b", [2])]
        (1 / 20) true "two-sided" =
      ["Teste t de Student", "estatistica_ttest=0.000",
        rejeita (1 / 20)] ∧
    rejeita (1 / 20) ≠ naoRejeita (1 / 20) := by
  constructor
  · show ["Teste t de Student", "estatistica_ttest=" ++ fmt3 0,
        if (1 : ℚ) / 20 > 1 / 20 then naoRejeita (1 / 20) else rejeita (1 / 20)] = _
    norm_num [fmt3, roundHalfEven, pad3]
    rfl
  · exact String.ne_of_head_ne (by rw [rejeita_head, naoRejeita_head]; decide)

/-- C2 (amended): whenever the delegated routine returns a p-value exactly
equal to `alfa`, a reporter selects the `rejects the null hypothesis`
branch (the code's check is strictly `p > alfa`): the t-test reporter's
last line is the reject verdict, and the Shapiro-Wilk reporter prints the
`não segue uma distribuição normal` (reject) line for every column. -/
theorem claim_C2 (ttest : List (List ℚ) → Bool → String → ℚ × ℚ)
    (sh : List ℚ → ℚ × ℚ) (dataframe : DataFrame) (alfa : ℚ)
    (variancias_iguais : Bool) (alternativa : String)
    (ht : (ttest (dfColunas dataframe) variancias_iguais alternativa).2 = alfa)
    (hsh : ∀ coluna : List ℚ, (sh coluna).2 = alfa) :
    (analise_ttest_ind ttest dataframe alfa variancias_iguais alternativa).getLastD ""
        = rejeita alfa ∧
    analise_shapiro sh dataframe alfa =
      "Teste de Shapiro-Wilk" ::
        dataframe.flatMap (fun nc =>
          ["estatistica_sw=" ++ fmt3 (sh nc.2).1,
            nc.1 ++ " não segue uma distribuição normal (valor p: " ++
              fmt3 alfa ++ ")"]) := by
  constructor
  · show ([_, _, if (ttest (dfColunas dataframe) variancias_iguais alternativa).2 > alfa
        then _ else _] : List String).getLastD "" = _
    rw [ht]
    simp [lt_irrefl]
  · unfold analise_shapiro
    refine congrArg _ ?_
    refine congrArg _ (funext fun nc => ?_)
    show ["estatistica_sw=" ++ fmt3 (sh nc.2).1,
        if (sh nc.2).2 > alfa then _ else _] = _
    rw [hsh nc.2]
    simp [lt_irrefl]

/-- C2 witness: the amended boundary behavior evaluated with mocked
routines returning `p = alfa = 0.05` on a concrete two-column table. -/
theorem claim_C2_witness :
    ((fun (_ : List (List ℚ)) (_ : Bool) (_ : String) => ((0 : ℚ), (1 : ℚ) / 20))
        (dfColunas [("a", [1]), ("b", [2])]) true "two-sided").2 = 1 / 20 ∧
    (analise_ttest_ind
        (fun _ _ _ => (0, 1 / 20)) [("a", [1]), ("b", [2])] (1 / 20) true
        "two-sided").getLastD "" = rejeita (1 / 20) :=
  ⟨rfl,
    (claim_C2 (fun _ _ _ => (0, 1 / 20)) (fun _ => (0, 1 / 20))
        [("a", [1]), ("b", [2])] (1 / 20) true "two-sided" rfl
        (fun _ => rfl)).1⟩
